import Mathlib

/-!
# Verification of the X4_Ship_Parse ingestion and derived-statistics pipeline

This file gives a shallow embedding, in Lean 4, of the core of the
X4_Ship_Parse repository: the localization resolver, the macro locator,
the ship-table loader (`src/data_parser.py`) and the derived-metrics
calculator (`development/app/logic.py`, `src/gui.py`), together with
theorems settling the specification claims about them.

Python floats are modelled as rationals (`ℚ`), Python ints as `ℤ`/`ℕ`,
Python `None` as `Option.none`, and the process-wide mutable localization
state as an explicit state record threaded through the functions that
read or write it.  Filesystem contents are passed in as explicit
environment values (parse outcomes per path), never re-simplified: each
definition mirrors the control flow of the corresponding source function.
-/

namespace X4Parse

/-! ## Generic string helpers (Python semantics)

Python string operations used by the source, modelled over `List Char`.
-/

/-- Python `sub in s` (substring containment), on the underlying
character lists.  `containsSub sub l` is `True` iff `sub` occurs
contiguously in `l`; the empty pattern occurs in every string. -/
def containsSub (sub : List Char) : List Char → Bool
  | [] => sub.isEmpty
  | c :: rest => sub.isPrefixOf (c :: rest) || containsSub sub rest

/-- Python `sub in s` for `String`s. -/
def strContains (s sub : String) : Bool := containsSub sub.data s.data

/-- Python `s.startswith(p)`. -/
def pyStartsWith (s p : String) : Bool := p.data.isPrefixOf s.data

/-- Python `s.endswith(p)`. -/
def pyEndsWith (s p : String) : Bool := p.data.isSuffixOf s.data

/-- The characters stripped by Python `str.strip()` (ASCII whitespace). -/
def isPySpace (c : Char) : Bool :=
  c == ' ' || c == '\t' || c == '\n' || c == '\r' || c == '\x0b' || c == '\x0c'

/-- Python `s.strip()`. -/
def pyStrip (s : List Char) : List Char :=
  ((s.dropWhile isPySpace).reverse.dropWhile isPySpace).reverse

/-- Python `s.strip()` for `String`s. -/
def pyStripStr (s : String) : String := String.mk (pyStrip s.data)

/-- Python `s.replace(pat, repl)`: replace every non-overlapping,
leftmost-first occurrence of `pat` by `repl`.  (The source only calls
this with non-empty `pat`; for `pat = []` this is the identity.) -/
def replaceAll (pat repl : List Char) : List Char → List Char
  | [] => []
  | c :: rest =>
    if h : pat ≠ [] ∧ pat.isPrefixOf (c :: rest) = true then
      repl ++ replaceAll pat repl ((c :: rest).drop pat.length)
    else
      c :: replaceAll pat repl rest
termination_by l => l.length
decreasing_by
  · simp only [List.length_drop, List.length_cons]
    have hp : 0 < pat.length := List.length_pos.mpr h.1
    omega
  · simp

/-- Python `s.split()`: split on runs of whitespace, dropping empty
pieces.  `curRev` is the reversed current word being accumulated. -/
def splitWs (curRev : List Char) : List Char → List (List Char)
  | [] => if curRev.isEmpty then [] else [curRev.reverse]
  | c :: rest =>
    if isPySpace c then
      if curRev.isEmpty then splitWs [] rest
      else curRev.reverse :: splitWs [] rest
    else
      splitWs (c :: curRev) rest

/-- Python `s.split()` for `String`s. -/
def pySplit (s : String) : List String := (splitWs [] s.data).map String.mk

/-! ## Derived Metrics Calculator (`development/app/logic.py`)

`compute_travel_speed(ship_row, engine_row)` receives either `None`, an
empty dict / empty pandas Series, or a row.  We model the three input
shapes by `PyRow`, and each row's relevant fields by an `Option`-valued
structure (a key may be missing, in which case `row.get(key, default)`
supplies the default).
-/

/-- A Python value that is either `None`, an empty dict/Series, or an
actual row of fields. -/
inductive PyRow (α : Type) where
  | absent
  | empty
  | row (fields : α)
deriving DecidableEq

/-- The fields of the ship row read by `compute_travel_speed`:
`ship_row.get("drag (forward)", 1.0)` and
`ship_row.get("engine_connections", 1)`. -/
structure ShipRowFields where
  dragForward : Option ℚ
  engineConnections : Option ℚ
deriving DecidableEq

/-- The fields of the engine row read by `compute_travel_speed`:
`engine_row.get("forward_thrust", 0.0)` and
`engine_row.get("travel_thrust", 0.0)`. -/
structure EngineRowFields where
  forwardThrust : Option ℚ
  travelThrust : Option ℚ
deriving DecidableEq

/-- `compute_travel_speed` from `development/app/logic.py` (lines 4-53):
returns `0.0` when either argument is `None` or an empty row; otherwise
computes `(forward_thrust * travel_thrust * engine_connections) /
drag_forward`, flooring `drag_forward` to `1e-6` when `<= 0` and
`engine_connections` to `1` when `<= 0`. -/
def compute_travel_speed : PyRow ShipRowFields → PyRow EngineRowFields → ℚ
  | PyRow.absent, _ => 0
  | _, PyRow.absent => 0
  | PyRow.empty, _ => 0
  | _, PyRow.empty => 0
  | PyRow.row s, PyRow.row e =>
    let engineThrustForward := e.forwardThrust.getD 0
    let travelThrust := e.travelThrust.getD 0
    let shipDragForward0 := s.dragForward.getD 1
    let engineConnections0 := s.engineConnections.getD 1
    let shipDragForward : ℚ :=
      if shipDragForward0 ≤ 0 then 1 / 1000000 else shipDragForward0
    let engineConnections : ℚ :=
      if engineConnections0 ≤ 0 then 1 else engineConnections0
    engineThrustForward * travelThrust * engineConnections / shipDragForward

/-- `compute_travel_speed` applied to two fully-populated rows, keyed by
(drag, connections, forward thrust, travel thrust). -/
def ctsQ (d c ft tt : ℚ) : ℚ :=
  compute_travel_speed (PyRow.row ⟨some d, some c⟩) (PyRow.row ⟨some ft, some tt⟩)

theorem ctsQ_eq (d c ft tt : ℚ) :
    ctsQ d c ft tt =
      ft * tt * (if c ≤ 0 then 1 else c) / (if d ≤ 0 then 1 / 1000000 else d) := rfl

theorem ctsQ_pos_eq (d c ft tt : ℚ) (hd : 0 < d) (hc : 0 < c) :
    ctsQ d c ft tt = ft * tt * c / d := by
  rw [ctsQ_eq, if_neg (not_le.mpr hd), if_neg (not_le.mpr hc)]

/-- The cargo/speed ratio computed by `update_tab_ship_stats`
(`src/gui.py` lines 1503-1511) and `update_cargo_chart` (lines
1344-1358): when `travel_speed` is present and positive and
`storage_cargo_max` is positive, the round-trip minutes for moving
1,000,000 cargo units over a 50,000-unit distance; otherwise no ratio
("N/A"), modelled as `none`. -/
def cargo_speed_ratio (travelSpeed : Option ℚ) (storageCargoMax : ℚ) : Option ℚ :=
  match travelSpeed with
  | none => none
  | some s =>
    if 0 < s ∧ 0 < storageCargoMax then
      some (1000000 / storageCargoMax * (50000 / s) / 60 * 2)
    else
      none

/-! ## Localization Resolver (`src/data_parser.py` lines 36-158)

`TEXT_MAPPINGS` (a Python dict) and `CURRENT_LANGUAGE_FILE` are
process-wide mutable globals; we model them as an explicit `TextState`
record.  A translation document (already XML-parsed) is modelled by
`LangDoc`; the outcome of locating and parsing a file at a given path is
`Option (Option LangDoc)`: `none` = the path does not exist,
`some none` = the file exists but `ET.parse` raises `ParseError`,
`some (some d)` = parsed successfully into `d`.
-/

/-- A `<t id=...>text</t>` entry of a translation page.  `id` is the
attribute (`None` when absent), `text` is the element text. -/
structure TEntry where
  id : Option String
  text : Option String
deriving DecidableEq

/-- A `<page id=...>` element of a translation document with its `t`
children. -/
structure LangPage where
  id : Option String
  entries : List TEntry
deriving DecidableEq

/-- A parsed translation document: the root tag, its `id` attribute, and
all `.//page` elements. -/
structure LangDoc where
  rootTag : String
  rootId : Option String
  pages : List LangPage
deriving DecidableEq

/-- The process-wide localization state: the `TEXT_MAPPINGS` dict
(association list with Python-dict lookup/overwrite semantics) and
`CURRENT_LANGUAGE_FILE`. -/
structure TextState where
  TEXT_MAPPINGS : List (String × String)
  CURRENT_LANGUAGE_FILE : Option String
deriving DecidableEq

/-- The environment seen by `load_text_mappings`: the detected language
file name (from `language_detector`), the locate-and-parse outcome for
`t/<langFile>`, and the outcome for the English fallback
`t/0001-l044.xml`. -/
structure TextEnv where
  langFile : String
  preferred : Option (Option LangDoc)
  englishFallback : Option (Option LangDoc)
deriving DecidableEq

/-- Python dict lookup `d.get(k)`. -/
def dictGet? (d : List (String × String)) (k : String) : Option String :=
  (d.find? (fun kv => kv.1 == k)).map (fun kv => kv.2)

/-- Python dict assignment `d[k] = v` (overwrite in place, else append). -/
def dictInsert : List (String × String) → String → String → List (String × String)
  | [], k, v => [(k, v)]
  | (k', v') :: rest, k, v =>
    if k' == k then (k, v) :: rest else (k', v') :: dictInsert rest k v

/-- The value cleanup of `load_text_mappings` (line 93):
`text_value.strip().replace("\\(", "(").replace("\\)", ")")`. -/
def cleanValue (s : String) : String :=
  String.mk (replaceAll ['\\', ')'] [')'] (replaceAll ['\\', '('] ['('] (pyStrip s.data)))

/-- The mapping key of `load_text_mappings` (line 91):
`f"{{{page_id},{text_id}}}"`. -/
def refKey (pageId textId : String) : String :=
  "\x7b" ++ pageId ++ "," ++ textId ++ "\x7d"

/-- Insert the entries of one translation page into the dict
(`load_text_mappings` lines 84-94): pages with a falsy `id` and entries
with a falsy `id` are skipped, missing text becomes `""`. -/
def loadPageEntries (pageId : String) : List (String × String) → List TEntry → List (String × String)
  | acc, [] => acc
  | acc, t :: rest =>
    match t.id with
    | some tid =>
      if tid ≠ "" then
        loadPageEntries pageId (dictInsert acc (refKey pageId tid) (cleanValue (t.text.getD ""))) rest
      else loadPageEntries pageId acc rest
    | none => loadPageEntries pageId acc rest

/-- Fold `loadPageEntries` over all pages of a document. -/
def loadPages : List (String × String) → List LangPage → List (String × String)
  | acc, [] => acc
  | acc, p :: rest =>
    match p.id with
    | some pid =>
      if pid ≠ "" then loadPages (loadPageEntries pid acc p.entries) rest
      else loadPages acc rest
    | none => loadPages acc rest

/-- The text-file selection of `load_text_mappings` (lines 57-69): the
preferred language file if it exists, else the English fallback if it
exists, else nothing. -/
def chosenTextFile (env : TextEnv) : Option (Option LangDoc) :=
  match env.preferred with
  | some o => some o
  | none =>
    match env.englishFallback with
    | some o => some o
    | none => none

/-- `load_text_mappings` (`src/data_parser.py` lines 40-100).  Early
return when the current language is already loaded; otherwise the dict
is cleared first, then: no file found → return (cleared); `ParseError` →
return (cleared); root tag not `"language"` → return (cleared);
otherwise the dict is rebuilt from the document's pages and
`CURRENT_LANGUAGE_FILE` is set to the detected language file name. -/
def load_text_mappings (env : TextEnv) (st : TextState) : TextState :=
  if st.TEXT_MAPPINGS ≠ [] ∧ st.CURRENT_LANGUAGE_FILE = some env.langFile then st
  else
    let cleared : TextState := { st with TEXT_MAPPINGS := [] }
    match chosenTextFile env with
    | none => cleared
    | some none => cleared
    | some (some doc) =>
      if doc.rootTag ≠ "language" then cleared
      else
        { TEXT_MAPPINGS := loadPages [] doc.pages,
          CURRENT_LANGUAGE_FILE := some env.langFile }

/-- `resolve_text_reference_advanced` (`src/data_parser.py` lines
102-107): lazily (re)load the mappings when the dict is empty, then
`TEXT_MAPPINGS.get(text_ref, text_ref)`.  Returns the possibly-updated
state together with the resolved string. -/
def resolve_text_reference_advanced (env : TextEnv) (st : TextState) (textRef : String) :
    TextState × String :=
  let st' := if st.TEXT_MAPPINGS = [] then load_text_mappings env st else st
  (st', (dictGet? st'.TEXT_MAPPINGS textRef).getD textRef)

/-- `refresh_text_mappings` (`src/data_parser.py` lines 110-115): clear
both globals, then reload. -/
def refresh_text_mappings (env : TextEnv) (st : TextState) : TextState :=
  let cleared : TextState := { st with TEXT_MAPPINGS := [], CURRENT_LANGUAGE_FILE := none }
  load_text_mappings env cleared

/-! ## Composite and complex name construction
(`src/data_parser.py` lines 132-205) -/

/-- The variation loop of `construct_ship_name` (lines 143-152): each
whitespace-separated token is stripped; tokens of the shape `{...}` are
resolved and the successfully resolved ones (result no longer starting
with a brace) are collected in order, threading the state. -/
def constructVariations (env : TextEnv) (st : TextState) :
    List String → TextState × List String
  | [] => (st, [])
  | r :: rest =>
    let ref := pyStripStr r
    if pyStartsWith ref "\x7b" && pyEndsWith ref "\x7d" then
      let p := resolve_text_reference_advanced env st ref
      let q := constructVariations env p.1 rest
      if ¬ pyStartsWith p.2 "\x7b" then (q.1, p.2 :: q.2) else q
    else
      constructVariations env st rest

/-- `construct_ship_name(basename_ref, variation_refs)`
(`src/data_parser.py` lines 132-158): `None` for a falsy basename
reference; otherwise the basename is resolved (prefixed with `"Ship "`
when resolution fails, i.e. the result still starts with a brace), each
whitespace-separated variation token that looks like `{...}` is
resolved, the successfully resolved ones are appended.  State is
threaded through the `resolve_text_reference_advanced` calls. -/
def construct_ship_name (env : TextEnv) (st : TextState)
    (basenameRef : Option String) (variationRefs : Option String) :
    TextState × Option String :=
  match basenameRef with
  | none => (st, none)
  | some bref =>
    if bref = "" then (st, none)
    else
      let p1 := resolve_text_reference_advanced env st bref
      let basename : String :=
        if pyStartsWith p1.2 "\x7b" then "Ship " ++ p1.2 else p1.2
      let refs : List String :=
        match variationRefs with
        | none => []
        | some vr => if vr = "" then [] else pySplit vr
      let p2 := constructVariations env p1.1 refs
      if p2.2 ≠ [] then
        (p2.1, some (basename ++ " " ++ String.intercalate " " p2.2))
      else
        (p2.1, some basename)

/-- The anchored regex match `\(([^)]+)\)(.+)` of
`parse_complex_name_reference` (lines 168-175): an opening paren, a
non-empty run of non-`)` characters (the display part), the closing
paren, then a non-empty remainder on the same line (`.` does not match
newline).  Returns `(display part, group 2)` on success. -/
def splitParen (s : List Char) : Option (List Char × List Char) :=
  match s with
  | [] => none
  | c :: rest =>
    if c = '(' then
      let disp := rest.takeWhile (fun x => x ≠ ')')
      match rest.dropWhile (fun x => x ≠ ')') with
      | [] => none
      | _ :: tail =>
        let body := tail.takeWhile (fun x => x ≠ '\n')
        if disp ≠ [] ∧ body ≠ [] then some (disp, body) else none
    else none

mutual

/-- `re.findall(r'\{[^}]+\}', s)`: every non-overlapping, leftmost-first
`{...}` token with a non-empty body, braces included. -/
def findRefs : List Char → List String
  | [] => []
  | c :: rest => if c = '{' then findRefsBody [] rest else findRefs rest

/-- Scanning state inside a candidate `{...}` token; `bodyRev` is the
reversed body seen so far. -/
def findRefsBody (bodyRev : List Char) : List Char → List String
  | [] => []
  | c :: rest =>
    if c = '}' then
      if bodyRev ≠ [] then
        String.mk ('{' :: (bodyRev.reverse ++ ['}'])) :: findRefs rest
      else findRefs rest
    else findRefsBody (c :: bodyRev) rest

end

/-- The resolution loop of `parse_complex_name_reference` (lines
181-185): resolve each reference, keeping the non-empty results that no
longer start with a brace, threading the localization state. -/
def resolveParts (env : TextEnv) (st : TextState) : List String → TextState × List String
  | [] => (st, [])
  | r :: rest =>
    let p := resolve_text_reference_advanced env st r
    let q := resolveParts env p.1 rest
    if p.2 ≠ "" ∧ ¬ pyStartsWith p.2 "\x7b" then (q.1, p.2 :: q.2) else q

/-- `parse_complex_name_reference(name_ref)` (`src/data_parser.py` lines
160-205): `None` unless the input is non-empty, starts with `(` and
matches `\(([^)]+)\)(.+)`; otherwise every `{...}` token of the stripped
second group is resolved, and the result is the first resolved part
joined with the remaining resolved parts — falling back to the
parenthesized display part only when no reference resolved. -/
def parse_complex_name_reference (env : TextEnv) (st : TextState)
    (nameRef : Option String) : TextState × Option String :=
  match nameRef with
  | none => (st, none)
  | some s =>
    if s = "" ∨ ¬ pyStartsWith s "(" then (st, none)
    else
      match splitParen s.data with
      | none => (st, none)
      | some (disp, refsPart) =>
        let refs := findRefs (pyStrip refsPart)
        let p := resolveParts env st refs
        match p.2 with
        | [] => (p.1, some (String.mk disp))
        | baseName :: variations =>
          let cleanVariations :=
            variations.filter (fun v => v ≠ "" && ¬ pyStartsWith v "\x7b")
          if cleanVariations ≠ [] then
            (p.1, some (baseName ++ " " ++ String.intercalate " " cleanVariations))
          else
            (p.1, some baseName)

/-! ## Macro Locator (`src/data_parser.py` lines 10-34, 516-538, 628-642
and `src/csv_generator.py` line 29)

Filesystem existence is an abstract predicate `exists? : String → Bool`
over path strings (paths joined with `/`).
-/

/-- `DATA_PATHS` (`src/data_parser.py` lines 11-14). -/
def DATA_PATHS : List String := ["data", "build_scripts/data"]

/-- `find_data_path(relative_path)` (lines 16-22): the first base path
under which `relative_path` exists, or `None`. -/
def find_data_path (exists? : String → Bool) (relativePath : String) : Option String :=
  (DATA_PATHS.map (fun basePath => basePath ++ "/" ++ relativePath)).find? exists?

/-- `get_all_data_paths(relative_path)` (lines 24-31): every base path
under which `relative_path` exists, in `DATA_PATHS` order. -/
def get_all_data_paths (exists? : String → Bool) (relativePath : String) : List String :=
  (DATA_PATHS.map (fun basePath => basePath ++ "/" ++ relativePath)).filter exists?

/-- `UNITS_DIR` (line 34): the single directory the ship load walks —
`find_data_path("assets/units") or Path("data/assets/units")`. -/
def UNITS_DIR (exists? : String → Bool) : String :=
  (find_data_path exists? "assets/units").getD "data/assets/units"

/-- The root directories the ship load searches
(`load_ship_data`, lines 288-290: it only globs `UNITS_DIR`). -/
def shipSearchDirs (exists? : String → Bool) : List String :=
  [UNITS_DIR exists?]

/-- The root directories the engine load searches
(`load_engine_data`, line 524). -/
def engineSearchDirs (exists? : String → Bool) : List String :=
  get_all_data_paths exists? "assets/props/Engines/macros"

/-- The root directories the shield load searches
(`parse_shields`, line 631). -/
def shieldSearchDirs (exists? : String → Bool) : List String :=
  get_all_data_paths exists? "assets/props/SurfaceElements/macros"

/-- The root directories the weapon/turret scan searches
(`WeaponCSVGenerator.__init__`, `src/csv_generator.py` line 29). -/
def weaponSystemsSearchDirs (exists? : String → Bool) : List String :=
  get_all_data_paths exists? "assets/props/WeaponSystems"

/-! ## Ship macro documents (`src/data_parser.py` lines 211-514)

The XML elements read by `load_ship_data` and its helpers, with each
attribute that the source reads modelled as an `Option` (absent
attribute = `none`); numeric attributes are modelled already converted
(`float(...)` → `ℚ`, `int(...)` → `ℤ`).
-/

/-- `<identification>` attributes read at lines 327-333. -/
structure IdentEl where
  makerrace : Option String
  icon : Option String
  description : Option String
  name : Option String
  basename : Option String
  variation : Option String
deriving DecidableEq

/-- `<hull max=...>` (line 336). -/
structure HullEl where
  max : Option ℚ
deriving DecidableEq

/-- `<cargo max=... tags=...>` (lines 340-342 and storage macro files,
lines 275-279). -/
structure CargoEl where
  max : Option ℤ
  tags : Option String
deriving DecidableEq

/-- `<storage .../>` with its raw attribute list (lines 345-349). -/
structure StorageEl where
  attribs : List (String × String)
deriving DecidableEq

/-- `<drag forward=... reverse=... horizontal=... vertical=...>`
(lines 360-365). -/
structure DragEl where
  forward : Option ℚ
  reverse : Option ℚ
  horizontal : Option ℚ
  vertical : Option ℚ
deriving DecidableEq

/-- `<physics mass=...>` with its optional `<drag>` child
(lines 352-365). -/
structure PhysicsEl where
  mass : Option ℚ
  drag : Option DragEl
deriving DecidableEq

/-- `<purpose primary=...>` (lines 368-369). -/
structure PurposeEl where
  primary : Option String
deriving DecidableEq

/-- `<ship type=...>` (lines 441-442). -/
structure ShipEl where
  type : Option String
deriving DecidableEq

/-- `<component ref=...>` (lines 372-373). -/
structure ComponentEl where
  ref : Option String
deriving DecidableEq

/-- The `<macro ref=...>` child of a `<connection>` in the ship macro's
`<connections>` list (lines 220-222). -/
structure ConnMacroRef where
  ref : Option String
deriving DecidableEq

/-- A `<connection>` of the ship macro's `<connections>` element
(lines 217-222). -/
structure ConnectionEl where
  macroRef : Option ConnMacroRef
deriving DecidableEq

/-- `<properties>` children read at lines 321-369 and 440-442. -/
structure PropsEl where
  identification : Option IdentEl
  hull : Option HullEl
  cargo : Option CargoEl
  storage : Option StorageEl
  physics : Option PhysicsEl
  purpose : Option PurposeEl
  ship : Option ShipEl
deriving DecidableEq

/-- The first `<macro>` element of a ship macro document
(lines 309-321, 372, 217). -/
structure ShipMacroEl where
  name : Option String
  aliasAttr : Option String
  cls : Option String
  properties : Option PropsEl
  component : Option ComponentEl
  connections : Option (List ConnectionEl)
deriving DecidableEq

/-- A parsed ship macro document: `root.find(".//macro")` may be absent
(line 309-311). -/
structure ShipMacroDoc where
  firstMacroEl : Option ShipMacroEl
deriving DecidableEq

/-- A `<connection tags=...>` of a component file (lines 385-388). -/
structure CompConn where
  tags : Option String
deriving DecidableEq

/-- A parsed component file: all `.//connection` elements. -/
structure CompDoc where
  connections : List CompConn
deriving DecidableEq

/-- A parsed storage macro file: its `.//cargo` element, if any
(lines 275-279). -/
structure StorageDoc where
  cargo : Option CargoEl
deriving DecidableEq

/-- Locate-and-parse outcome per component file path: `none` = the path
does not exist, `some none` = `ET.ParseError`, `some (some d)` =
parsed. -/
abbrev CompFS := String → Option (Option CompDoc)

/-- Locate-and-parse outcome per storage macro file path. -/
abbrev StorageFS := String → Option (Option StorageDoc)

/-- Python `s.lower()` (ASCII). -/
def pyLower (s : String) : String := String.mk (s.data.map Char.toLower)

/-- Python `Path(fileName).stem` for the `*.xml` files produced by the
loader's glob: the file name with the final `.xml` suffix removed. -/
def pathStem (fileName : String) : String :=
  if pyEndsWith fileName ".xml" then
    String.mk (fileName.data.take (fileName.data.length - 4))
  else fileName

/-- `find_storage_macro(ship_xml_file, storage_ref)` (`src/data_parser.py`
lines 250-266) combined with the subsequent parse: try, in order, a file
named `<storage_ref>.xml` next to the ship file, then the two fixed
StorageModules directories; return the locate-and-parse outcome of the
first existing one, `none` if none exists. -/
def find_storage_macro_file (storageFS : StorageFS) (shipFileParent storageRef : String) :
    Option (Option StorageDoc) :=
  match storageFS (shipFileParent ++ "/" ++ storageRef ++ ".xml") with
  | some o => some o
  | none =>
    match storageFS ("data/assets/props/StorageModules/macros/" ++ storageRef ++ ".xml") with
    | some o => some o
    | none => storageFS ("data/assets/props/StorageModules/" ++ storageRef ++ ".xml")

/-- `parse_storage_macro(storage_file)` (lines 268-283): `(0, None)` on
`ParseError` or when no `.//cargo` element exists; otherwise
`(int(max attr, default 0), tags attr with default "")`. -/
def parse_storage_macro_file (outcome : Option StorageDoc) : ℤ × Option String :=
  match outcome with
  | none => (0, none)
  | some doc =>
    match doc.cargo with
    | some c => (c.max.getD 0, some (c.tags.getD ""))
    | none => (0, none)

/-- The connection scan of `extract_storage_info` (lines 217-231): the
first connection whose `<macro ref=...>` name contains `"storage"`
(case-insensitively) and whose referenced storage file yields a positive
cargo max wins; otherwise `(0, None)`. -/
def storageFromConnections (storageFS : StorageFS) (shipFileParent : String) :
    List ConnectionEl → ℤ × Option String
  | [] => (0, none)
  | conn :: rest =>
    match conn.macroRef with
    | some m =>
      let refName := (m.ref).getD ""
      if strContains (pyLower refName) "storage" then
        match find_storage_macro_file storageFS shipFileParent refName with
        | some outcome =>
          let pr := parse_storage_macro_file outcome
          if 0 < pr.1 then pr
          else storageFromConnections storageFS shipFileParent rest
        | none => storageFromConnections storageFS shipFileParent rest
      else storageFromConnections storageFS shipFileParent rest
    | none => storageFromConnections storageFS shipFileParent rest

/-- `extract_storage_info(xml_file, macro_el)` (lines 211-248): the
connection scan, then — when it found nothing — the naming-convention
fallback replacing `"ship_"` by `"storage_"` in the file stem. -/
def extract_storage_info (storageFS : StorageFS) (shipFileParent fileName : String)
    (mEl : ShipMacroEl) : ℤ × Option String :=
  let fromConns :=
    match mEl.connections with
    | some conns => storageFromConnections storageFS shipFileParent conns
    | none => (0, none)
  if fromConns.1 = 0 then
    let shipName := pathStem fileName
    if pyStartsWith shipName "ship_" then
      let storageName :=
        String.mk (replaceAll ("ship_").data ("storage_").data shipName.data)
      match find_storage_macro_file storageFS shipFileParent storageName with
      | some outcome => parse_storage_macro_file outcome
      | none => fromConns
    else fromConns
  else fromConns

/-- The component file path used at lines 379 and 401:
`xml_file.parent.parent / f"{component_ref}.xml"` (the size-class
directory, i.e. the parent of the `macros` folder). -/
def componentFilePath (dirPath ref : String) : String :=
  dirPath ++ "/" ++ ref ++ ".xml"

/-- The engine-connection count of `load_ship_data` (lines 375-394):
`0` when no (truthy) component reference is declared; `1` when the
component file is missing or unparsable; otherwise the number of
component connections whose (truthy) `tags` contain `"engine"`. -/
def engineConnectionsOf (compFS : CompFS) (dirPath : String)
    (componentRef : Option String) : ℕ :=
  match componentRef with
  | none => 0
  | some ref =>
    if ref = "" then 0
    else
      match compFS (componentFilePath dirPath ref) with
      | none => 1
      | some none => 1
      | some (some comp) =>
        (comp.connections.filter (fun conn =>
          match conn.tags with
          | some t => t ≠ "" && strContains t "engine"
          | none => false)).length

/-- The shield-connection count and shield size class of
`load_ship_data` (lines 396-438).  Both default to `(0, none)` when the
component reference is falsy or the file is missing/unparsable.  The
size class follows the source's `elif` chain over the first shield
connection's tags (note: a tag containing `"extralarge"` is caught by
the earlier `"large"` test, as in the source), falling back to the
size-class token in the ship file's path. -/
def shieldInfoOf (compFS : CompFS) (dirPath xmlFilePath : String)
    (componentRef : Option String) : ℕ × Option String :=
  match componentRef with
  | none => (0, none)
  | some ref =>
    if ref = "" then (0, none)
    else
      match compFS (componentFilePath dirPath ref) with
      | none => (0, none)
      | some none => (0, none)
      | some (some comp) =>
        let shieldConns := comp.connections.filter (fun conn =>
          match conn.tags with
          | some t => t ≠ "" && strContains t "shield"
          | none => false)
        let n := shieldConns.length
        match shieldConns.head? with
        | none => (n, none)
        | some c0 =>
          let tags := (c0.tags).getD ""
          if strContains tags "small" then (n, some "s")
          else if strContains tags "medium" then (n, some "m")
          else if strContains tags "large" then (n, some "l")
          else if strContains tags "extralarge" || strContains tags "xl" then (n, some "xl")
          else if strContains xmlFilePath "size_s" then (n, some "s")
          else if strContains xmlFilePath "size_m" then (n, some "m")
          else if strContains xmlFilePath "size_l" then (n, some "l")
          else if strContains xmlFilePath "size_xl" then (n, some "xl")
          else (n, none)

/-- One row of the ships table (`load_ship_data` lines 470-497), with
the dict keys `"class"` → `cls`, `"alias"` → `aliasAttr`,
`"drag (forward)"` → `drag_forward`, etc. -/
structure ShipRecord where
  macro_name : Option String
  aliasAttr : Option String
  cls : String
  maker_race : Option String
  icon : Option String
  description : Option String
  name_ref : Option String
  basename_ref : Option String
  variation_ref : Option String
  display_name : Option String
  hull_max : ℚ
  storage : Option String
  storage_cargo_max : ℤ
  storage_cargo_type : Option String
  purpose_primary : Option String
  ship_type : Option String
  mass : ℚ
  drag_forward : ℚ
  drag_reverse : ℚ
  drag_horizontal : ℚ
  drag_vertical : ℚ
  engine_connections : ℕ
  shield_connections : ℕ
  shield_size_class : Option String
  component_ref : Option String
  file : String
deriving DecidableEq

/-- The display-name resolution of `load_ship_data` (lines 455-468):
composite construction when both a (truthy) basename and variation
reference exist; else resolution of the (truthy) name reference, with
complex re-parsing when the resolved string starts with `(` and contains
a brace; else the macro name. -/
def displayNameOf (env : TextEnv) (st : TextState) (macroName : Option String)
    (nameRef basenameRef variationRef : Option String) : TextState × Option String :=
  if basenameRef.getD "" ≠ "" ∧ variationRef.getD "" ≠ "" then
    construct_ship_name env st basenameRef variationRef
  else if nameRef.getD "" ≠ "" then
    let p := resolve_text_reference_advanced env st (nameRef.getD "")
    if p.2 ≠ "" && pyStartsWith p.2 "(" && strContains p.2 "\x7b" then
      let q := parse_complex_name_reference env p.1 (some p.2)
      match q.2 with
      | some complexName =>
        if complexName ≠ "" then (q.1, some complexName) else (q.1, some p.2)
      | none => (q.1, some p.2)
    else (p.1, some p.2)
  else (st, macroName)

/-- The per-file body of `load_ship_data`'s inner loop (lines 300-497):
skip unparsable files, files without a `<macro>` element or without
`<properties>`, small drones, laser towers and transport-drone files;
otherwise produce the ship record.  (Lines 340-342 also read the ship's
own `<cargo>` element into locals that the record never uses; they are
omitted here.)  `dirPath` is the size-class directory containing the
`macros` folder; the `alias` attribute (lines 314-319) overrides the
macro name when it ends in `"_macro"`. -/
def extractShip (env : TextEnv) (compFS : CompFS) (storageFS : StorageFS)
    (dirPath fileName : String) (doc? : Option ShipMacroDoc) (st : TextState) :
    TextState × Option ShipRecord :=
  match doc? with
  | none => (st, none)
  | some doc =>
    match doc.firstMacroEl with
    | none => (st, none)
    | some mEl =>
      let shipClass := (mEl.cls).getD "unknown"
      let macroName :=
        match mEl.aliasAttr with
        | some a => if a ≠ "" ∧ pyEndsWith a "_macro" then some a else mEl.name
        | none => mEl.name
      match mEl.properties with
      | none => (st, none)
      | some props =>
        let ident := props.identification
        let nameRef := ident.bind IdentEl.name
        let basenameRef := ident.bind IdentEl.basename
        let variationRef := ident.bind IdentEl.variation
        let dragEl := (props.physics).bind PhysicsEl.drag
        let xmlFilePath := dirPath ++ "/macros/" ++ fileName
        let componentRef := (mEl.component).bind ComponentEl.ref
        let engineConnections := engineConnectionsOf compFS dirPath componentRef
        let shieldInfo := shieldInfoOf compFS dirPath xmlFilePath componentRef
        let shipType := (props.ship).bind ShipEl.type
        if shipType = some "smalldrone" then (st, none)
        else if shipType = some "lasertower" then (st, none)
        else if strContains fileName "transdrone" then (st, none)
        else
          let storageInfo := extract_storage_info storageFS (dirPath ++ "/macros") fileName mEl
          let pDN := displayNameOf env st macroName nameRef basenameRef variationRef
          (pDN.1, some {
            macro_name := macroName,
            aliasAttr := mEl.aliasAttr,
            cls := shipClass,
            maker_race := ident.bind IdentEl.makerrace,
            icon := ident.bind IdentEl.icon,
            description := ident.bind IdentEl.description,
            name_ref := nameRef,
            basename_ref := basenameRef,
            variation_ref := variationRef,
            display_name := pDN.2,
            hull_max := (((props.hull).bind HullEl.max)).getD 0,
            storage := (props.storage).map (fun s =>
              String.intercalate ", " (s.attribs.map (fun kv => kv.1 ++ "=" ++ kv.2))),
            storage_cargo_max := storageInfo.1,
            storage_cargo_type := storageInfo.2,
            purpose_primary := (props.purpose).bind PurposeEl.primary,
            ship_type := shipType,
            mass := (((props.physics).bind PhysicsEl.mass)).getD 0,
            drag_forward := ((dragEl.bind DragEl.forward)).getD 0,
            drag_reverse := ((dragEl.bind DragEl.reverse)).getD 0,
            drag_horizontal := ((dragEl.bind DragEl.horizontal)).getD 0,
            drag_vertical := ((dragEl.bind DragEl.vertical)).getD 0,
            engine_connections := engineConnections,
            shield_connections := shieldInfo.1,
            shield_size_class := shieldInfo.2,
            component_ref := componentRef,
            file := xmlFilePath })

/-- One size-class directory under the units directory, with its name
(`size_dir.name`), full path, whether a `macros` subdirectory exists
(line 295-297), and the locate-and-parse outcomes of the XML files in
that subdirectory (in glob order). -/
structure SizeDir where
  path : String
  name : String
  hasMacrosDir : Bool
  macroFiles : List (String × Option ShipMacroDoc)

/-- The inner file loop of `load_ship_data` (lines 300-497) over the
`ship_*.xml` files of one size directory, threading the localization
state and collecting the produced records in order. -/
def loadDirFiles (env : TextEnv) (compFS : CompFS) (storageFS : StorageFS)
    (dirPath : String) (st : TextState) :
    List (String × Option ShipMacroDoc) → TextState × List ShipRecord
  | [] => (st, [])
  | f :: rest =>
    let p := extractShip env compFS storageFS dirPath f.1 f.2 st
    let q := loadDirFiles env compFS storageFS dirPath p.1 rest
    match p.2 with
    | some r => (q.1, r :: q.2)
    | none => q

/-- The outer directory loop of `load_ship_data` (lines 290-298): every
`size_*` directory except `size_xs` whose `macros` subdirectory exists
contributes the records of its `ship_*.xml` files. -/
def loadDirs (env : TextEnv) (compFS : CompFS) (storageFS : StorageFS)
    (st : TextState) : List SizeDir → TextState × List ShipRecord
  | [] => (st, [])
  | d :: rest =>
    if d.name = "size_xs" then loadDirs env compFS storageFS st rest
    else if ¬ d.hasMacrosDir then loadDirs env compFS storageFS st rest
    else
      let files := d.macroFiles.filter (fun f =>
        pyStartsWith f.1 "ship_" && pyEndsWith f.1 ".xml")
      let p := loadDirFiles env compFS storageFS d.path st files
      let q := loadDirs env compFS storageFS p.1 rest
      (q.1, p.2 ++ q.2)

/-- One row of the engines table passed into `load_ship_data`
(`load_engine_data` lines 608-621; only the columns relevant to the
merge and the metrics are carried). -/
structure EngineRow where
  name : String
  travel_thrust : ℚ
  boost_thrust : ℚ
  forward_thrust : ℚ
  reverse_thrust : ℚ
deriving DecidableEq

/-- The pandas left merge of lines 504-513: each ship row is paired with
every engine row whose `name` equals the ship's `component_ref`
(duplicating the ship row on multiple matches), or with `none` when
there is no match; a `None` key matches nothing. -/
def mergeShipsEngines (ships : List ShipRecord) (engines : List EngineRow) :
    List (ShipRecord × Option EngineRow) :=
  ships.flatMap (fun s =>
    match s.component_ref with
    | none => [(s, none)]
    | some cref =>
      match engines.filter (fun e => e.name = cref) with
      | [] => [(s, none)]
      | es => es.map (fun e => (s, some e)))

/-- `load_ship_data(engines_df)` (`src/data_parser.py` lines 285-514):
walk the size directories, build the ship records, then — when both
tables are non-empty — left-merge with the engines table on
`component_ref = name`.  Returns the final localization state and the
resulting table. -/
def load_ship_data (env : TextEnv) (compFS : CompFS) (storageFS : StorageFS)
    (dirs : List SizeDir) (engines : List EngineRow) (st : TextState) :
    TextState × List (ShipRecord × Option EngineRow) :=
  let p := loadDirs env compFS storageFS st dirs
  (p.1,
    if p.2 ≠ [] ∧ engines ≠ [] then mergeShipsEngines p.2 engines
    else p.2.map (fun s => (s, none)))

/-! ## Theorems -/

/-- C2: for present (non-`None`, non-empty) ship and engine rows,
`compute_travel_speed` returns
`(forward_thrust * travel_thrust * engine_connections) / drag_forward`,
with `drag_forward` replaced by the small positive epsilon `1e-6` when
it is `≤ 0` and `engine_connections` replaced by `1` when it is `≤ 0`;
and it returns `0` whenever either argument is `None` or empty. -/
theorem compute_travel_speed_spec (ft tt d c : ℚ) :
    compute_travel_speed (PyRow.row ⟨some d, some c⟩) (PyRow.row ⟨some ft, some tt⟩)
        = ft * tt * (if c ≤ 0 then 1 else c) / (if d ≤ 0 then 1 / 1000000 else d)
    ∧ (∀ e, compute_travel_speed PyRow.absent e = 0)
    ∧ (∀ s, compute_travel_speed s PyRow.absent = 0)
    ∧ (∀ e, compute_travel_speed PyRow.empty e = 0)
    ∧ (∀ s, compute_travel_speed s PyRow.empty = 0) := by
  refine ⟨rfl, fun e => ?_, fun s => ?_, fun e => ?_, fun s => ?_⟩
  · cases e <;> rfl
  · cases s <;> rfl
  · cases e <;> rfl
  · cases s <;> rfl

/-- C6: with all inputs held positive, `compute_travel_speed` is
strictly increasing in `forward_thrust`, `travel_thrust` and
`engine_connections`, and strictly decreasing in `drag_forward`. -/
theorem compute_travel_speed_monotone (ft ft' tt tt' c c' d d' : ℚ)
    (hft : 0 < ft) (htt : 0 < tt) (hc : 0 < c) (hd : 0 < d)
    (hft' : 0 < ft') (htt' : 0 < tt') (hc' : 0 < c') (hd' : 0 < d') :
    (ft < ft' → ctsQ d c ft tt < ctsQ d c ft' tt)
    ∧ (tt < tt' → ctsQ d c ft tt < ctsQ d c ft tt')
    ∧ (c < c' → ctsQ d c ft tt < ctsQ d c' ft tt)
    ∧ (d < d' → ctsQ d' c ft tt < ctsQ d c ft tt) := by
  refine ⟨fun h => ?_, fun h => ?_, fun h => ?_, fun h => ?_⟩
  · rw [ctsQ_pos_eq d c ft tt hd hc, ctsQ_pos_eq d c ft' tt hd hc]
    gcongr
  · rw [ctsQ_pos_eq d c ft tt hd hc, ctsQ_pos_eq d c ft tt' hd hc]
    gcongr
  · rw [ctsQ_pos_eq d c ft tt hd hc, ctsQ_pos_eq d c' ft tt hd hc']
    gcongr
  · rw [ctsQ_pos_eq d c ft tt hd hc, ctsQ_pos_eq d' c ft tt hd' hc]
    gcongr

/-- Witness for C6 at concrete positive inputs. -/
theorem compute_travel_speed_monotone_witness :
    ctsQ 1 1 1 1 < ctsQ 1 1 2 1 ∧ ctsQ 1 1 1 1 < ctsQ 1 1 1 2
    ∧ ctsQ 1 1 1 1 < ctsQ 1 2 1 1 ∧ ctsQ 2 1 1 1 < ctsQ 1 1 1 1 := by
  have h := compute_travel_speed_monotone 1 2 1 2 1 2 1 2
    (by norm_num) (by norm_num) (by norm_num) (by norm_num)
    (by norm_num) (by norm_num) (by norm_num) (by norm_num)
  exact ⟨h.1 (by norm_num), h.2.1 (by norm_num), h.2.2.1 (by norm_num), h.2.2.2 (by norm_num)⟩

/-- C8: for positive travel speed and positive cargo capacity the
cargo/speed ratio is `((1000000 / cargo) * (50000 / speed)) / 60 * 2`,
and it is "not applicable" (`none`) when the speed is missing or zero or
the cargo capacity is zero. -/
theorem cargo_speed_ratio_spec (s c : ℚ) (hs : 0 < s) (hc : 0 < c) :
    cargo_speed_ratio (some s) c = some (1000000 / c * (50000 / s) / 60 * 2)
    ∧ (∀ c', cargo_speed_ratio none c' = none)
    ∧ (∀ c', cargo_speed_ratio (some 0) c' = none)
    ∧ (∀ s', cargo_speed_ratio (some s') 0 = none) := by
  refine ⟨?_, fun c' => rfl, fun c' => ?_, fun s' => ?_⟩
  · simp only [cargo_speed_ratio, if_pos (And.intro hs hc)]
  · simp [cargo_speed_ratio]
  · simp [cargo_speed_ratio]

/-- Witness for C8 at the benchmark point `speed = 50000`,
`cargo = 1000000` (and concrete "not applicable" cases). -/
theorem cargo_speed_ratio_spec_witness :
    cargo_speed_ratio (some 50000) 1000000
      = some (1000000 / 1000000 * (50000 / 50000) / 60 * 2)
    ∧ cargo_speed_ratio none 5 = none
    ∧ cargo_speed_ratio (some 0) 5 = none
    ∧ cargo_speed_ratio (some 5) 0 = none := by
  have h := cargo_speed_ratio_spec 50000 1000000 (by norm_num) (by norm_num)
  exact ⟨h.1, h.2.1 5, h.2.2.1 5, h.2.2.2 5⟩

/-- C5: a text reference that is not a key of the (lazily built) mapping
table resolves to itself, and the lazy build happens exactly when the
table is empty.  (`resolve_text_reference_advanced` is a total Lean
function, so no exception can be raised.) -/
theorem resolve_unknown_returns_ref (env : TextEnv) (st : TextState) (r : String)
    (h : dictGet? (resolve_text_reference_advanced env st r).1.TEXT_MAPPINGS r = none) :
    (resolve_text_reference_advanced env st r).2 = r
    ∧ (resolve_text_reference_advanced env st r).1 =
        (if st.TEXT_MAPPINGS = [] then load_text_mappings env st else st) := by
  constructor
  · simp only [resolve_text_reference_advanced] at h ⊢
    rw [h]
    rfl
  · rfl

/-- Witness for C5 on an environment with no translation files and an
unknown reference. -/
theorem resolve_unknown_returns_ref_witness :
    (resolve_text_reference_advanced ⟨"0001-l044.xml", none, none⟩ ⟨[], none⟩
        "\x7b1,2\x7d").2 = "\x7b1,2\x7d" :=
  (resolve_unknown_returns_ref ⟨"0001-l044.xml", none, none⟩ ⟨[], none⟩
    "\x7b1,2\x7d" (by decide)).1

/-- Formalization of claim C4 as stated: every reload either fully
rebuilds the table for the new language, or leaves the previously loaded
table untouched. -/
def reloadAtomicClaim : Prop :=
  ∀ (env : TextEnv) (st : TextState),
    (∃ doc, chosenTextFile env = some (some doc) ∧ doc.rootTag = "language" ∧
      refresh_text_mappings env st =
        { TEXT_MAPPINGS := loadPages [] doc.pages,
          CURRENT_LANGUAGE_FILE := some env.langFile })
    ∨ (refresh_text_mappings env st).TEXT_MAPPINGS = st.TEXT_MAPPINGS

/-- C4 counterexample: with a non-empty previously loaded table and no
translation file on disk, the reload empties the table — the previous
table is not preserved and nothing is rebuilt. -/
theorem refresh_not_atomic_cex : ¬ reloadAtomicClaim := by
  intro h
  rcases h ⟨"0001-l007.xml", none, none⟩
      ⟨[("\x7b20101,11001\x7d", "Vanguard")], some "0001-l007.xml"⟩ with
    ⟨doc, hdoc, _, _⟩ | hsame
  · simp [chosenTextFile] at hdoc
  · exact absurd hsame (by decide)

/-- C4 amended: a reload is destructive rather than
previous-table-preserving — `refresh_text_mappings` first clears both
globals, so independently of the previous state it either fully rebuilds
the table (when the chosen translation file parses with root tag
`language`) or leaves the table empty on any failure (missing file,
parse error, invalid root tag). -/
theorem refresh_clears_or_rebuilds (env : TextEnv) (st : TextState) :
    refresh_text_mappings env st =
      (match chosenTextFile env with
      | some (some doc) =>
        if doc.rootTag = "language"
        then { TEXT_MAPPINGS := loadPages [] doc.pages,
               CURRENT_LANGUAGE_FILE := some env.langFile }
        else { TEXT_MAPPINGS := [], CURRENT_LANGUAGE_FILE := none }
      | _ => { TEXT_MAPPINGS := [], CURRENT_LANGUAGE_FILE := none }) := by
  unfold refresh_text_mappings load_text_mappings
  cases hc : chosenTextFile env with
  | none => simp
  | some o =>
    cases o with
    | none => simp
    | some doc =>
      by_cases htag : doc.rootTag = "language" <;> simp [htag]

/-- Formalization of claim C7 as stated: every macro-file category
searches all candidate roots and concatenates the results. -/
def allRootsSearchedClaim : Prop :=
  ∀ e : String → Bool,
    shipSearchDirs e = get_all_data_paths e "assets/units"
    ∧ engineSearchDirs e = get_all_data_paths e "assets/props/Engines/macros"
    ∧ shieldSearchDirs e = get_all_data_paths e "assets/props/SurfaceElements/macros"
    ∧ weaponSystemsSearchDirs e = get_all_data_paths e "assets/props/WeaponSystems"

/-- C7 counterexample: when the units directory exists under both data
roots, the ship load searches only the first one
(`UNITS_DIR = find_data_path(...)`), not the concatenation. -/
theorem find_files_cex : ¬ allRootsSearchedClaim := fun h =>
  absurd (h (fun p => p == "data/assets/units" || p == "build_scripts/data/assets/units")).1
    (by decide)

/-- Helper: `find?` returns the head of the filtered list. -/
theorem find?_eq_head?_filter {α : Type} (p : α → Bool) :
    ∀ l : List α, l.find? p = (l.filter p).head?
  | [] => rfl
  | x :: xs => by
    by_cases h : p x = true
    · rw [List.find?_cons_of_pos _ h, List.filter_cons_of_pos h]
      rfl
    · rw [List.find?_cons_of_neg _ h, List.filter_cons_of_neg h]
      exact find?_eq_head?_filter p xs

/-- C7 amended: the engine, shield and weapon/turret loads search every
candidate root and concatenate the results (every existing candidate
path is in the searched list), while the ship load uses a single units
directory — the first existing root (the head of the all-roots list),
defaulting to `data/assets/units`. -/
theorem search_roots_spec (e : String → Bool) (relPath : String) (b : String)
    (hb : b ∈ DATA_PATHS) (he : e (b ++ "/" ++ relPath) = true) :
    (b ++ "/" ++ relPath) ∈ get_all_data_paths e relPath
    ∧ engineSearchDirs e = get_all_data_paths e "assets/props/Engines/macros"
    ∧ shieldSearchDirs e = get_all_data_paths e "assets/props/SurfaceElements/macros"
    ∧ weaponSystemsSearchDirs e = get_all_data_paths e "assets/props/WeaponSystems"
    ∧ shipSearchDirs e = [(find_data_path e "assets/units").getD "data/assets/units"]
    ∧ find_data_path e "assets/units" = (get_all_data_paths e "assets/units").head? := by
  refine ⟨?_, rfl, rfl, rfl, rfl, ?_⟩
  · unfold get_all_data_paths
    rw [List.mem_filter]
    exact ⟨List.mem_map_of_mem _ hb, he⟩
  · unfold find_data_path get_all_data_paths
    exact find?_eq_head?_filter e _

/-- Witness for C7 amended: concrete filesystem in which both roots
exist. -/
theorem search_roots_spec_witness :
    ("data" ++ "/" ++ "assets/props/Engines/macros")
      ∈ get_all_data_paths (fun _ => true) "assets/props/Engines/macros"
    ∧ shipSearchDirs (fun _ => true)
        = [(find_data_path (fun _ => true) "assets/units").getD "data/assets/units"] := by
  have h := search_roots_spec (fun _ => true) "assets/props/Engines/macros" "data"
    (by decide) rfl
  exact ⟨h.1, h.2.2.2.2.1⟩

/-- Helper: a successful `splitParen` forces a leading `(`. -/
theorem splitParen_eq_some {cs : List Char} {pr : List Char × List Char}
    (h : splitParen cs = some pr) : ∃ t, cs = '(' :: t := by
  cases cs with
  | nil => simp [splitParen] at h
  | cons c t =>
    by_cases hcp : c = '('
    · exact ⟨t, by rw [hcp]⟩
    · simp [splitParen, hcp] at h

/-- C3 counterexample: for
`"(Behemoth E){20101,11001} {20111,5462}"` with the first token
resolving to `"Vanguard"` and the second failing, the function returns
`"Vanguard"`, not the claimed `"Behemoth E Vanguard"` — the
parenthesized literal is discarded as soon as any token resolves. -/
theorem parse_complex_cex :
    (parse_complex_name_reference ⟨"0001-l044.xml", none, none⟩
        ⟨[("\x7b20101,11001\x7d", "Vanguard")], some "0001-l044.xml"⟩
        (some "(Behemoth E)\x7b20101,11001\x7d \x7b20111,5462\x7d")).2 = some "Vanguard"
    ∧ (some "Vanguard" : Option String) ≠ some "Behemoth E Vanguard" :=
  ⟨by decide, by decide⟩

/-- C3 amended: on an input matching `(<literal>)<refs>`, the function
returns the parenthesized literal alone when no trailing token resolves;
when at least one resolves, it returns only the successfully resolved
parts joined in order (first part as base name) and discards the
parenthesized literal. -/
theorem parse_complex_spec (env : TextEnv) (st : TextState) (s : String)
    (disp body : List Char) (h : splitParen s.data = some (disp, body)) :
    (parse_complex_name_reference env st (some s)).2 =
      some (match (resolveParts env st (findRefs (pyStrip body))).2 with
        | [] => String.mk disp
        | baseName :: variations =>
          if (variations.filter (fun v => v ≠ "" && ¬ pyStartsWith v "\x7b")) ≠ [] then
            baseName ++ " " ++
              String.intercalate " "
                (variations.filter (fun v => v ≠ "" && ¬ pyStartsWith v "\x7b"))
          else baseName) := by
  obtain ⟨cs⟩ := s
  obtain ⟨t, ht⟩ := splitParen_eq_some h
  have hcs : cs = '(' :: t := ht
  subst hcs
  have hne : ¬ (String.mk ('(' :: t) = "" ∨ ¬ pyStartsWith (String.mk ('(' :: t)) "(" = true) := by
    simp [pyStartsWith, List.isPrefixOf, String.ext_iff]
  simp only [parse_complex_name_reference, if_neg hne, h]
  split <;> first | rfl | (split <;> rfl)

/-- Witness for C3 amended: all trailing tokens fail to resolve, so the
parenthesized literal alone is returned. -/
theorem parse_complex_spec_witness :
    (parse_complex_name_reference ⟨"0001-l044.xml", none, none⟩
        ⟨[("k", "v")], some "0001-l044.xml"⟩
        (some "(Behemoth E)\x7b20101,99999\x7d")).2 = some "Behemoth E" := by
  rw [parse_complex_spec ⟨"0001-l044.xml", none, none⟩ ⟨[("k", "v")], some "0001-l044.xml"⟩
    "(Behemoth E)\x7b20101,99999\x7d" ("Behemoth E").data ("\x7b20101,99999\x7d").data
    (by decide)]
  decide

/-- Helper: `pyStartsWith (a ++ b) a` always holds. -/
theorem pyStartsWith_append (a b : String) : pyStartsWith (a ++ b) a = true := by
  simp [pyStartsWith, String.data_append, List.isPrefixOf_iff_prefix]

/-- Helper: `pyStartsWith a a` always holds. -/
theorem pyStartsWith_self (a : String) : pyStartsWith a a = true := by
  simp [pyStartsWith, List.isPrefixOf_iff_prefix]

/-- Helper: a `pyStartsWith` witness from an underlying-list split. -/
theorem pyStartsWith_of_data_append (r x : String) (rest : List Char)
    (h : r.data = x.data ++ rest) : pyStartsWith r x = true := by
  simp [pyStartsWith, h, List.isPrefixOf_iff_prefix]

/-- Helper: a one-character pattern only looks at the head. -/
theorem singleton_isPrefixOf_eq_head (c : Char) (l : List Char) :
    [c].isPrefixOf l = (l.head?.elim false (fun x => c == x)) := by
  cases l <;> simp [List.isPrefixOf]

/-- Helper: whether a string starts with a brace is a head check. -/
theorem pyStartsWith_brace_eq (r : String) :
    pyStartsWith r "\x7b" = (r.data.head?.elim false (fun x => '\x7b' == x)) := by
  have hb : ("\x7b" : String).data = ['\x7b'] := rfl
  unfold pyStartsWith
  rw [hb, singleton_isPrefixOf_eq_head]

/-- Helper: a resolve miss returns the reference unchanged. -/
theorem resolve_miss (env : TextEnv) (st : TextState) (r : String)
    (h : dictGet? (resolve_text_reference_advanced env st r).1.TEXT_MAPPINGS r = none) :
    (resolve_text_reference_advanced env st r).2 = r := by
  simp only [resolve_text_reference_advanced] at h ⊢
  rw [h]
  rfl

/-- The basename computed by `construct_ship_name` (lines 137-140): the
resolved reference, prefixed with `"Ship "` when resolution failed
(the resolved string still starts with a brace). -/
def constructBasename (env : TextEnv) (st : TextState) (bref : String) : String :=
  if pyStartsWith (resolve_text_reference_advanced env st bref).2 "\x7b" then
    "Ship " ++ (resolve_text_reference_advanced env st bref).2
  else (resolve_text_reference_advanced env st bref).2

/-- Helper: shape of a successful `construct_ship_name` result: the
basename, optionally followed by a space and the joined variations. -/
theorem construct_ship_name_shape (env : TextEnv) (st : TextState) (bref : String)
    (vr : Option String) (h : bref ≠ "") :
    ∃ st2 r, construct_ship_name env st (some bref) vr = (st2, some r)
      ∧ (r = constructBasename env st bref
         ∨ ∃ t2, r = constructBasename env st bref ++ " " ++ t2) := by
  simp only [construct_ship_name, if_neg h]
  split
  · exact ⟨_, _, rfl, Or.inr ⟨_, rfl⟩⟩
  · exact ⟨_, _, rfl, Or.inl rfl⟩

/-- C10: `construct_ship_name` returns `None` for an absent or empty
basename reference; for an unresolvable brace-token basename reference
the returned display name is the raw token prefixed with `"Ship "`
(followed by any resolved variations); and a returned name never starts
with `"{"`, so the documented starts-with-brace failure check cannot
fire on these names. -/
theorem construct_ship_name_spec :
    (∀ env st vr, construct_ship_name env st none vr = (st, none))
    ∧ (∀ env st vr, construct_ship_name env st (some "") vr = (st, none))
    ∧ (∀ env st bref vr, bref ≠ "" → pyStartsWith bref "\x7b" = true →
        dictGet? (resolve_text_reference_advanced env st bref).1.TEXT_MAPPINGS bref = none →
        ∃ r, (construct_ship_name env st (some bref) vr).2 = some r
          ∧ pyStartsWith r ("Ship " ++ bref) = true)
    ∧ (∀ env st bn vr r, (construct_ship_name env st bn vr).2 = some r →
        pyStartsWith r "\x7b" = false) := by
  have hshape := construct_ship_name_shape
  refine ⟨fun env st vr => rfl, fun env st vr => rfl, ?_, ?_⟩
  · intro env st bref vr h1 h2 h3
    have hres : (resolve_text_reference_advanced env st bref).2 = bref :=
      resolve_miss env st bref h3
    have hbase : constructBasename env st bref = "Ship " ++ bref := by
      rw [constructBasename, hres, if_pos h2]
    obtain ⟨st2, r, hr, hcase⟩ := hshape env st bref vr h1
    refine ⟨r, by rw [hr], ?_⟩
    rcases hcase with hc | ⟨t2, hc⟩
    · rw [hc, hbase]
      exact pyStartsWith_self _
    · refine pyStartsWith_of_data_append r ("Ship " ++ bref) (' ' :: t2.data) ?_
      rw [hc, hbase]
      simp [String.data_append]
  · intro env st bn vr r hr
    cases bn with
    | none => exact Option.noConfusion hr
    | some bref =>
      by_cases hb : bref = ""
      · subst hb
        exact Option.noConfusion hr
      · obtain ⟨st2, r', hr', hcase⟩ := hshape env st bref vr hb
        rw [hr'] at hr
        have hrr : r' = r := by simpa using hr
        subst hrr
        rw [pyStartsWith_brace_eq]
        by_cases hsw : pyStartsWith (resolve_text_reference_advanced env st bref).2 "\x7b" = true
        · have hbase : constructBasename env st bref =
              "Ship " ++ (resolve_text_reference_advanced env st bref).2 := by
            rw [constructBasename, if_pos hsw]
          rcases hcase with hc | ⟨t2, hc⟩ <;>
            simp [hc, hbase, String.data_append]
        · have hbase : constructBasename env st bref =
              (resolve_text_reference_advanced env st bref).2 := by
            rw [constructBasename, if_neg hsw]
          rw [pyStartsWith_brace_eq] at hsw
          rcases hcase with hc | ⟨t2, hc⟩
          · rw [hc, hbase]
            simpa using hsw
          · have hd : (constructBasename env st bref ++ " " ++ t2).data =
                (resolve_text_reference_advanced env st bref).2.data ++ (' ' :: t2.data) := by
              rw [hbase]
              simp [String.data_append]
            rw [hc, hd]
            cases hx : (resolve_text_reference_advanced env st bref).2.data with
            | nil => simp
            | cons cch cl =>
              rw [hx] at hsw
              simpa using hsw

/-- Witness for C10: absent basename gives `None`; an unknown brace
token gives a `"Ship "`-prefixed name. -/
theorem construct_ship_name_spec_witness :
    construct_ship_name ⟨"0001-l044.xml", none, none⟩ ⟨[("k", "v")], some "0001-l044.xml"⟩
        none none = (⟨[("k", "v")], some "0001-l044.xml"⟩, none)
    ∧ ∃ r, (construct_ship_name ⟨"0001-l044.xml", none, none⟩
        ⟨[("k", "v")], some "0001-l044.xml"⟩ (some "\x7b20101,11001\x7d") none).2 = some r
          ∧ pyStartsWith r ("Ship " ++ "\x7b20101,11001\x7d") = true := by
  have h := construct_ship_name_spec
  exact ⟨h.1 _ _ _,
    h.2.2.1 ⟨"0001-l044.xml", none, none⟩ ⟨[("k", "v")], some "0001-l044.xml"⟩
      "\x7b20101,11001\x7d" none (by decide) (by decide) (by decide)⟩

/-- Helper: every record collected by the inner file loop was produced
by `extractShip` on one of the files, from some intermediate
localization state. -/
theorem mem_loadDirFiles (env : TextEnv) (compFS : CompFS) (storageFS : StorageFS)
    (dirPath : String) (files : List (String × Option ShipMacroDoc)) :
    ∀ (st : TextState) (r : ShipRecord),
      r ∈ (loadDirFiles env compFS storageFS dirPath st files).2 →
      ∃ f ∈ files, ∃ stIn,
        (extractShip env compFS storageFS dirPath f.1 f.2 stIn).2 = some r := by
  induction files with
  | nil => intro st r h; simp [loadDirFiles] at h
  | cons f rest ih =>
    intro st r h
    simp only [loadDirFiles] at h
    rcases hp : (extractShip env compFS storageFS dirPath f.1 f.2 st).2 with _ | r0
    · rw [hp] at h
      obtain ⟨f', hf', stIn, hex⟩ := ih _ r h
      exact ⟨f', List.mem_cons_of_mem _ hf', stIn, hex⟩
    · rw [hp] at h
      rcases List.mem_cons.mp h with heq | hmem
      · exact ⟨f, List.mem_cons_self _ _, st, by rw [hp, heq]⟩
      · obtain ⟨f', hf', stIn, hex⟩ := ih _ r hmem
        exact ⟨f', List.mem_cons_of_mem _ hf', stIn, hex⟩

/-- Helper: every record collected by the directory loop comes from a
non-`size_xs` directory of the input and one of its macro files. -/
theorem mem_loadDirs (env : TextEnv) (compFS : CompFS) (storageFS : StorageFS)
    (dirs : List SizeDir) :
    ∀ (st : TextState) (r : ShipRecord),
      r ∈ (loadDirs env compFS storageFS st dirs).2 →
      ∃ d ∈ dirs, d.name ≠ "size_xs" ∧ ∃ f ∈ d.macroFiles, ∃ stIn,
        (extractShip env compFS storageFS d.path f.1 f.2 stIn).2 = some r := by
  induction dirs with
  | nil => intro st r h; simp [loadDirs] at h
  | cons d rest ih =>
    intro st r h
    simp only [loadDirs] at h
    by_cases hxs : d.name = "size_xs"
    · rw [if_pos hxs] at h
      obtain ⟨d', hd', hrest⟩ := ih _ r h
      exact ⟨d', List.mem_cons_of_mem _ hd', hrest⟩
    · rw [if_neg hxs] at h
      by_cases hmac : d.hasMacrosDir = true
      · rw [if_neg (not_not_intro hmac)] at h
        rcases List.mem_append.mp h with h1 | h2
        · obtain ⟨f, hf, stIn, hex⟩ :=
            mem_loadDirFiles env compFS storageFS d.path _ _ r h1
          exact ⟨d, List.mem_cons_self _ _, hxs, f, (List.mem_filter.mp hf).1, stIn, hex⟩
        · obtain ⟨d', hd', hrest⟩ := ih _ r h2
          exact ⟨d', List.mem_cons_of_mem _ hd', hrest⟩
      · rw [if_pos hmac] at h
        obtain ⟨d', hd', hrest⟩ := ih _ r h
        exact ⟨d', List.mem_cons_of_mem _ hd', hrest⟩

/-- Helper: the merge never invents ship rows — the first component of
every merged pair is one of the input ship records. -/
theorem mem_merge_fst (ships : List ShipRecord) (engines : List EngineRow)
    (pr : ShipRecord × Option EngineRow) (h : pr ∈ mergeShipsEngines ships engines) :
    pr.1 ∈ ships := by
  unfold mergeShipsEngines at h
  rw [List.mem_flatMap] at h
  obtain ⟨s, hs, hpr⟩ := h
  split at hpr
  · rcases List.mem_singleton.mp hpr with rfl
    exact hs
  · split at hpr
    · rcases List.mem_singleton.mp hpr with rfl
      exact hs
    · obtain ⟨e', _, heq⟩ := List.mem_map.mp hpr
      rw [← heq]
      exact hs

/-- Helper: the first component of every row of the final ship table is
a record collected by the directory loop. -/
theorem mem_load_ship_data_fst (env : TextEnv) (compFS : CompFS) (storageFS : StorageFS)
    (dirs : List SizeDir) (engines : List EngineRow) (st : TextState)
    (pr : ShipRecord × Option EngineRow)
    (h : pr ∈ (load_ship_data env compFS storageFS dirs engines st).2) :
    pr.1 ∈ (loadDirs env compFS storageFS st dirs).2 := by
  unfold load_ship_data at h
  simp only at h
  split at h
  · exact mem_merge_fst _ _ _ h
  · obtain ⟨s, hs, heq⟩ := List.mem_map.mp h
    rw [← heq]
    exact hs

/-- Helper: the record produced by a successful `extractShip` has the
engine-connection count of its component lookup and carries its own
file path. -/
theorem extractShip_some_fields (env : TextEnv) (compFS : CompFS) (storageFS : StorageFS)
    (dirPath fileName : String) (doc? : Option ShipMacroDoc) (st : TextState)
    (r : ShipRecord) (h : (extractShip env compFS storageFS dirPath fileName doc? st).2 = some r) :
    r.engine_connections = engineConnectionsOf compFS dirPath r.component_ref
    ∧ r.file = dirPath ++ "/macros/" ++ fileName := by
  cases doc? with
  | none => exact Option.noConfusion h
  | some doc =>
    simp only [extractShip] at h
    repeat
      first
      | exact Option.noConfusion h
      | (obtain rfl : _ = r := Option.some.inj h; exact ⟨rfl, rfl⟩)
      | split at h

/-- C9: no row of the ship table produced by a load originates from a
`size_xs` directory: every row's record was produced by `extractShip` on
a file of a directory whose name is not `"size_xs"`, and the record's
`file` field carries that directory's path. -/
theorem size_xs_excluded (env : TextEnv) (compFS : CompFS) (storageFS : StorageFS)
    (dirs : List SizeDir) (engines : List EngineRow) (st : TextState)
    (pr : ShipRecord × Option EngineRow)
    (h : pr ∈ (load_ship_data env compFS storageFS dirs engines st).2) :
    ∃ d ∈ dirs, d.name ≠ "size_xs" ∧ ∃ f ∈ d.macroFiles, ∃ stIn,
      (extractShip env compFS storageFS d.path f.1 f.2 stIn).2 = some pr.1
      ∧ pr.1.file = d.path ++ "/macros/" ++ f.1 := by
  obtain ⟨d, hd, hdn, f, hf, stIn, hex⟩ :=
    mem_loadDirs env compFS storageFS dirs st pr.1
      (mem_load_ship_data_fst env compFS storageFS dirs engines st pr h)
  exact ⟨d, hd, hdn, f, hf, stIn, hex,
    (extractShip_some_fields env compFS storageFS d.path f.1 f.2 stIn pr.1 hex).2⟩

/-- Witness for C9 on a one-directory, one-file load. -/
theorem size_xs_excluded_witness :
    ∃ d ∈ [(⟨"data/assets/units/size_m", "size_m", true,
        [("ship_w_macro.xml", some ⟨some ⟨some "ship_w", none, some "ship_m",
          some ⟨none, none, none, none, none, none, none⟩, none, none⟩⟩)]⟩ : SizeDir)],
      d.name ≠ "size_xs" ∧ ∃ f ∈ d.macroFiles, ∃ stIn,
        (extractShip ⟨"0001-l044.xml", none, none⟩ (fun _ => none) (fun _ => none)
            d.path f.1 f.2 stIn).2 =
          some (⟨some "ship_w", none, "ship_m", none, none, none, none, none, none,
            some "ship_w", 0, none, 0, none, none, none, 0, 0, 0, 0, 0, 0, 0, none, none,
            "data/assets/units/size_m/macros/ship_w_macro.xml"⟩ : ShipRecord)
        ∧ (⟨some "ship_w", none, "ship_m", none, none, none, none, none, none,
            some "ship_w", 0, none, 0, none, none, none, 0, 0, 0, 0, 0, 0, 0, none, none,
            "data/assets/units/size_m/macros/ship_w_macro.xml"⟩ : ShipRecord).file =
          d.path ++ "/macros/" ++ f.1 :=
  size_xs_excluded ⟨"0001-l044.xml", none, none⟩ (fun _ => none) (fun _ => none)
    [⟨"data/assets/units/size_m", "size_m", true,
       [("ship_w_macro.xml", some ⟨some ⟨some "ship_w", none, some "ship_m",
         some ⟨none, none, none, none, none, none, none⟩, none, none⟩⟩)]⟩]
    [] ⟨[], none⟩
    (⟨some "ship_w", none, "ship_m", none, none, none, none, none, none,
      some "ship_w", 0, none, 0, none, none, none, 0, 0, 0, 0, 0, 0, 0, none, none,
      "data/assets/units/size_m/macros/ship_w_macro.xml"⟩, none)
    (by decide)

/-- C1 counterexample: a valid ship macro that declares no component
reference produces a record with `engine_connections = 0` — the claimed
invariant `engine_connections ≥ 1` fails. -/
theorem engine_connections_cex :
    ∃ pr ∈ (load_ship_data ⟨"0001-l044.xml", none, none⟩ (fun _ => none) (fun _ => none)
      [⟨"data/assets/units/size_l", "size_l", true,
         [("ship_t_macro.xml", some ⟨some ⟨some "ship_t", none, some "ship_l",
           some ⟨none, none, none, none, none, none, none⟩, none, none⟩⟩)]⟩]
      [] ⟨[], none⟩).2,
      pr.1.engine_connections = 0 ∧ pr.1.component_ref = none := by decide

/-- C1 corrected: for every produced record, `shield_connections ≥ 0`
holds, and `engine_connections` equals the component-lookup count:
it is `1` when a non-empty component reference is declared but the
component file is missing or unparsable, but it is `0` when the macro
declares no component reference (and it is the — possibly zero — count
of engine-tagged connections when the component file parses). -/
theorem engine_connections_amended :
    (∀ (env : TextEnv) (compFS : CompFS) (storageFS : StorageFS) (dirs : List SizeDir)
        (engines : List EngineRow) (st : TextState) (pr : ShipRecord × Option EngineRow),
        pr ∈ (load_ship_data env compFS storageFS dirs engines st).2 →
        0 ≤ pr.1.shield_connections
        ∧ (pr.1.component_ref = none → pr.1.engine_connections = 0))
    ∧ (∀ (compFS : CompFS) (dirPath ref : String), ref ≠ "" →
        (compFS (componentFilePath dirPath ref) = none
          ∨ compFS (componentFilePath dirPath ref) = some none) →
        engineConnectionsOf compFS dirPath (some ref) = 1)
    ∧ (∀ (env : TextEnv) (compFS : CompFS) (storageFS : StorageFS)
        (dirPath fileName : String) (doc? : Option ShipMacroDoc) (st : TextState)
        (r : ShipRecord),
        (extractShip env compFS storageFS dirPath fileName doc? st).2 = some r →
        r.engine_connections = engineConnectionsOf compFS dirPath r.component_ref) := by
  refine ⟨?_, ?_, ?_⟩
  · intro env compFS storageFS dirs engines st pr h
    obtain ⟨d, _, _, f, _, stIn, hex⟩ := mem_loadDirs env compFS storageFS dirs st pr.1
      (mem_load_ship_data_fst env compFS storageFS dirs engines st pr h)
    have hfld := extractShip_some_fields env compFS storageFS d.path f.1 f.2 stIn pr.1 hex
    refine ⟨Nat.zero_le _, fun hnone => ?_⟩
    rw [hfld.1, hnone]
    rfl
  · intro compFS dirPath ref href hmiss
    rcases hmiss with hm | hm <;> simp [engineConnectionsOf, href, hm]
  · intro env compFS storageFS dirPath fileName doc? st r h
    exact (extractShip_some_fields env compFS storageFS dirPath fileName doc? st r h).1

/-- Witness for C1 corrected: a missing component file yields
`engine_connections = 1`, and an absent component reference yields
`engine_connections = 0` in a concretely loaded record. -/
theorem engine_connections_amended_witness :
    engineConnectionsOf (fun _ => none) "data/assets/units/size_l" (some "ship_t") = 1
    ∧ ((⟨some "ship_t", none, "ship_l", none, none, none, none, none, none,
        some "ship_t", 0, none, 0, none, none, none, 0, 0, 0, 0, 0, 0, 0, none, none,
        "data/assets/units/size_l/macros/ship_t_macro.xml"⟩ : ShipRecord),
        (none : Option EngineRow)).1.engine_connections = 0 := by
  have h := engine_connections_amended
  refine ⟨h.2.1 (fun _ => none) "data/assets/units/size_l" "ship_t" (by decide) (Or.inl rfl), ?_⟩
  exact (h.1 ⟨"0001-l044.xml", none, none⟩ (fun _ => none) (fun _ => none)
    [⟨"data/assets/units/size_l", "size_l", true,
       [("ship_t_macro.xml", some ⟨some ⟨some "ship_t", none, some "ship_l",
         some ⟨none, none, none, none, none, none, none⟩, none, none⟩⟩)]⟩]
    [] ⟨[], none⟩
    (⟨some "ship_t", none, "ship_l", none, none, none, none, none, none,
      some "ship_t", 0, none, 0, none, none, none, 0, 0, 0, 0, 0, 0, 0, none, none,
      "data/assets/units/size_l/macros/ship_t_macro.xml"⟩, none)
    (by decide)).2 rfl

end X4Parse
